import Mathlib

/-!
Verification of the conversation-orchestration core of the advocadia-wIA
repository (src/app/services/orchestration_service.py, with the canonical
flow definition from src/app/services/firebase_service.py).

The Python module is embedded shallowly below.  Pure helpers become Lean
functions on `String`/`List Char`; the session dictionary becomes the
`Session` structure; the fallible normalizer returns `Option`; external
effects (lead submission, notification dispatch) are reported as explicit
fields of the returned result.  Timestamps are abstracted as `Nat` values
supplied by the caller.  String primitives mirror the Python semantics of
`str.strip`, `str.lower` (ASCII case mapping; every keyword table in the
source is already lower-case ASCII-relevant), `str.split()`,
`str.capitalize`, substring membership via `in`, and `str.isdigit`
filtering.
-/

namespace Orchestration

/-- Python `needle in haystack` at a given start: needle is a leading
segment of the haystack character list. -/
def startsWithChars : List Char → List Char → Bool
  | [], _ => true
  | _ :: _, [] => false
  | a :: as, b :: bs => a == b && startsWithChars as bs

/-- Python `needle in haystack` (contiguous substring test). -/
def containsChars (needle : List Char) : List Char → Bool
  | [] => startsWithChars needle []
  | c :: rest => startsWithChars needle (c :: rest) || containsChars needle rest

/-- Substring test on strings, Python's `needle in hay`. -/
def substrOf (needle hay : String) : Bool :=
  containsChars needle.data hay.data

/-- Python `s.strip()`: drop leading and trailing whitespace. -/
def pyStrip (s : String) : String :=
  String.mk (((s.data.dropWhile Char.isWhitespace).reverse.dropWhile Char.isWhitespace).reverse)

/-- Python `s.lower()` restricted to ASCII case mapping. -/
def pyLower (s : String) : String :=
  String.mk (s.data.map Char.toLower)

/-- Python `word.capitalize()`: first character upper-cased, the rest
lower-cased. -/
def pyCapitalize (w : String) : String :=
  match w.data with
  | [] => ""
  | c :: cs => String.mk (c.toUpper :: cs.map Char.toLower)

/-- Helper for `pySplit`: splits on whitespace runs, accumulating the
current word reversed. -/
def splitWSAux : List Char → List Char → List (List Char)
  | [], acc => if acc.isEmpty then [] else [acc.reverse]
  | c :: rest, acc =>
    if c.isWhitespace then
      if acc.isEmpty then splitWSAux rest [] else acc.reverse :: splitWSAux rest []
    else
      splitWSAux rest (c :: acc)

/-- Python `s.split()` with no separator: split on whitespace runs,
discarding empty pieces. -/
def pySplit (s : String) : List String :=
  (splitWSAux s.data []).map String.mk

/-- Python `''.join(filter(str.isdigit, s))`. -/
def digitsOf (s : String) : String :=
  String.mk (s.data.filter Char.isDigit)

/-- One step of a flow definition: id, prompt text, optional stored field
name, optional error text (the source documents also carry a `required`
flag that the orchestrator never reads; it is omitted). -/
structure Step where
  id : Nat
  question : String
  field : Option String
  errorMessage : Option String
deriving Repr, DecidableEq

/-- A flow definition: ordered steps plus a completion message. -/
structure Flow where
  steps : List Step
  completionMessage : String
deriving Repr, DecidableEq

/-- The session dictionary created by `_get_or_create_session` (the
`session_id` key is the store key, an identity rather than state, and is
kept outside the model; absent dictionary keys are modelled by the same
defaults Python's `dict.get` supplies). -/
structure Session where
  platform : String
  createdAt : Nat
  currentStep : Nat
  responses : List (String × String)
  flowCompleted : Bool
  phoneCollected : Bool
  messageCount : Nat
  phoneNumber : Option String
  phoneFormatted : Option String
  lastUpdated : Nat
deriving Repr, DecidableEq

/-- `_get_or_create_session`: reuse the stored session when present,
otherwise create the fresh dictionary; an explicitly passed phone number
overrides the stored one. -/
def get_or_create_session (existing : Option Session) (platform : String)
    (phone : Option String) (now : Nat) : Session :=
  let sd :=
    match existing with
    | some d => d
    | none =>
      { platform := platform, createdAt := now, currentStep := 1, responses := [],
        flowCompleted := false, phoneCollected := false, messageCount := 0,
        phoneNumber := none, phoneFormatted := none, lastUpdated := now }
  match phone with
  | some p => { sd with phoneNumber := some p }
  | none => sd

/-- Python `responses.get(key, default)` over the association list. -/
def lookupD (l : List (String × String)) (k d : String) : String :=
  match l.find? (fun p => p.1 == k) with
  | some p => p.2
  | none => d

/-- `_is_phone_number`: 10 to 13 digits after stripping non-digits. -/
def is_phone_number (message : String) : Bool :=
  decide (10 ≤ (digitsOf message).length) && decide ((digitsOf message).length ≤ 13)

/-- The off-topic keyword table of `_get_off_topic_response`, in source
insertion order (Python iterates the dict in that order). -/
def off_topic_patterns : List (List String × String) :=
  [ (["quanto custa", "preço", "valor", "custo", "honorário", "cobrança"],
      "Entendo sua preocupação sobre valores, mas vamos primeiro coletar suas informações. Discutiremos isso depois."),
    (["quem vai", "qual advogado", "quem me ajuda", "quem atende"],
      "Um advogado especializado irá atendê-lo após coletarmos seus dados. Vamos continuar."),
    (["quando", "que horas", "horário", "prazo", "demora"],
      "Sobre prazos e horários, nossa equipe explicará tudo depois. Vamos finalizar seu cadastro primeiro."),
    (["onde", "endereço", "localização", "escritório"],
      "Informações sobre localização serão fornecidas em breve. Vamos continuar com suas informações."),
    (["como funciona", "como é", "processo", "procedimento"],
      "Explicaremos todo o processo depois. Agora vamos focar em conhecer sua situação."),
    (["como vai", "tudo bem", "boa tarde", "boa noite", "obrigado", "valeu"],
      "Obrigado! Vamos continuar com o atendimento."),
    (["experiência", "formação", "especialista", "qualificação"],
      "Nossa equipe é altamente qualificada. Vamos primeiro entender seu caso."),
    (["taxa de sucesso", "quantos casos", "resultados"],
      "Temos ótimos resultados, mas cada caso é único. Vamos conhecer o seu primeiro."),
    (["urgente", "rápido", "emergência", "pressa"],
      "Entendemos a urgência. Para agilizar, vamos completar suas informações rapidamente.") ]

/-- `_get_off_topic_response`: first matching pattern wins, then the
short-greeting fallback, otherwise `none` (the `currentStep` argument is
received but never read by the source body). -/
def get_off_topic_response (message : String) (currentStep : Nat) : Option String :=
  let messageLower := pyLower (pyStrip message)
  match off_topic_patterns.find? (fun p => p.1.any (fun kw => substrOf kw messageLower)) with
  | some p => some p.2
  | none =>
    if decide ((pyStrip message).length ≤ 3)
        && ["oi", "olá", "ok", "sim", "não"].contains messageLower then
      some "Vamos continuar com o atendimento."
    else
      none

/-- The legal-area keyword lexicon of `_is_step_response` step 2. -/
def legalAreas : List String :=
  ["penal", "civil", "trabalhista", "família", "familia", "empresarial",
   "criminal", "trabalho", "divórcio", "divorcio", "comercial", "contrato"]

/-- `_is_step_response`: the strict per-step classifier gate. -/
def is_step_response (message : String) (stepId : Nat) : Bool :=
  let m := pyLower (pyStrip message)
  if m.length < 1 then false
  else if stepId == 1 then
    decide (2 ≤ m.length)
      && !(["olá", "oi", "hello", "como", "ajuda", "preciso", "quero"].any
            (fun w => substrOf w m))
  else if stepId == 2 then
    decide (3 ≤ m.length) && legalAreas.any (fun a => substrOf a m)
  else if stepId == 3 then
    decide (5 ≤ m.length)
      && !(["olá", "oi", "como", "você", "qual", "quando", "ajuda"].any
            (fun w => substrOf w m))
  else if stepId == 4 then
    decide (10 ≤ (digitsOf m).length) && decide ((digitsOf m).length ≤ 13)
  else false

/-- The legal-area synonym table of `_validate_and_normalize_answer`,
first match wins in source order. -/
def areaMap : List (String × String) :=
  [("criminal", "Penal"), ("penal", "Penal"),
   ("trabalho", "Trabalhista"), ("trabalhista", "Trabalhista"),
   ("família", "Família"), ("familia", "Família"),
   ("divórcio", "Família"), ("divorcio", "Família"),
   ("civil", "Civil"), ("empresarial", "Empresarial"),
   ("comercial", "Empresarial")]

/-- `_validate_and_normalize_answer`: `none` models the raised
`ValueError`. -/
def validate_and_normalize_answer (answer : String) (stepId : Nat) : Option String :=
  let a := pyStrip answer
  if stepId == 1 then
    if a.length < 2 then none
    else some (String.intercalate " " ((pySplit a).map pyCapitalize))
  else if stepId == 2 then
    if a.length < 3 then none
    else
      match areaMap.find? (fun kv => substrOf kv.1 (pyLower a)) with
      | some kv => some kv.2
      | none => none
  else if stepId == 3 then
    if a.length < 5 then none else some a
  else if stepId == 4 then
    if (digitsOf a).length < 10 || 13 < (digitsOf a).length then none
    else some (digitsOf a)
  else some a

/-- `_handle_firebase_step`, returning (response text, step_advanced,
resulting session).  After a successful normalization the source
evaluates `next((st for st in steps if st["id"] == next_step), None)`
where the local `next_step` is never assigned anywhere in the function;
the resulting NameError is swallowed by the function's catch-all handler,
which re-resolves the current step and re-presents its question with
`step_advanced = False`.  Consequently the answer is never stored, the
step never advances and `flow_completed` is never set on this path; only
`last_updated` (assigned just before the failing line) is mutated.  The
"step missing from the flow" path returns the first step's question, or
reaches the same catch-all when the step list is empty. -/
def handle_firebase_step (flow : Flow) (message : String) (s : Session)
    (now : Nat) : String × Bool × Session :=
  match flow.steps.find? (fun st => st.id == s.currentStep) with
  | none =>
    match flow.steps.head? with
    | some st0 => (st0.question, false, s)
    | none => ("Qual é o seu nome completo?", false, s)
  | some stepData =>
    match validate_and_normalize_answer message s.currentStep with
    | none => (stepData.errorMessage.getD stepData.question, false, s)
    | some _ =>
      (stepData.question, false, { s with lastUpdated := now })

/-- `_handle_gemini_response` (the active revision): off-topic reply when
one matches, otherwise the current step's question, with a terminal
fallback to the first-step prompt. -/
def handle_gemini_response (flow : Flow) (message : String) (s : Session) : String :=
  match get_off_topic_response message s.currentStep with
  | some r => r
  | none =>
    match flow.steps.find? (fun st => st.id == s.currentStep) with
    | some st => st.question
    | none => "Qual é o seu nome completo?"

/-- Phone canonicalization inside `_handle_phone_collection`. -/
def format_phone (phoneClean : String) : String :=
  if phoneClean.length == 10 then
    "55" ++ String.mk (phoneClean.data.take 2) ++ "9" ++ String.mk (phoneClean.data.drop 2)
  else if phoneClean.length == 11 then
    "55" ++ phoneClean
  else if startsWithChars "55".data phoneClean.data then
    phoneClean
  else
    "55" ++ phoneClean

/-- The lead record assembled by `_handle_phone_collection`: the non-empty
answers of steps 1..4 plus the captured phone as answer 5. -/
def lead_answers (responses : List (String × String)) (phoneClean : String) :
    List (Nat × String) :=
  (([1, 2, 3, 4] : List Nat).filterMap (fun i =>
    let a := lookupD responses ("step_" ++ toString i) ""
    if a == "" then none else some (i, a))) ++ [(5, phoneClean)]

/-- The user-facing confirmation text of `_handle_phone_collection`;
`dispatchOk` is the outcome of the notification dispatch attempt. -/
def confirmation_text (phoneClean : String) (dispatchOk : Bool) : String :=
  "Número confirmado: " ++ phoneClean ++ " 📱\n\nPerfeito! Suas informações foram registradas com sucesso. Nossa equipe entrará em contato em breve.\n\n"
    ++ (if dispatchOk then "✅ Mensagem enviada para seu WhatsApp!"
        else "⚠️ Houve um problema ao enviar a mensagem do WhatsApp, mas suas informações foram salvas.")

/-- Outcome of one `_handle_phone_collection` call.  `leadRecord` is
`some record` exactly when lead submission was attempted (its failure is
swallowed by the source), and `dispatchAttempted` records whether the
notification dispatch service was invoked. -/
structure PhoneOutcome where
  response : String
  session : Session
  leadRecord : Option (List (Nat × String))
  dispatchAttempted : Bool
deriving Repr, DecidableEq

/-- `_handle_phone_collection`: validate digit count, canonicalize, mark
the session, submit the lead and attempt the notification dispatch. -/
def handle_phone_collection (phoneMessage : String) (s : Session) (now : Nat)
    (dispatchOk : Bool) : PhoneOutcome :=
  let phoneClean := digitsOf phoneMessage
  if phoneClean.length < 10 || 13 < phoneClean.length then
    { response := "Número inválido. Por favor, digite no formato com DDD (exemplo: 11999999999):",
      session := s, leadRecord := none, dispatchAttempted := false }
  else
    let s1 := { s with phoneNumber := some phoneClean,
                       phoneFormatted := some (format_phone phoneClean),
                       phoneCollected := true,
                       lastUpdated := now }
    { response := confirmation_text phoneClean dispatchOk,
      session := s1,
      leadRecord := some (lead_answers s.responses phoneClean),
      dispatchAttempted := true }

/-- The typed result of one `process_message` call.  `responseType`
carries the source's `response_type` string; the effect fields are
forwarded from `handle_phone_collection` (every other branch performs no
lead submission and no dispatch). -/
structure OrchestrationResult where
  responseType : String
  response : String
  session : Session
  leadRecord : Option (List (Nat × String))
  dispatchAttempted : Bool
deriving Repr, DecidableEq

/-- `process_message`: the top-level dispatch.  Branch order as in the
source: phone capture (completed flow, phone not yet collected,
digit-shaped message), then the messaging-gateway bypass keyed on the
`platform` argument, then the strict step branch, then the
off-topic/redirect branch. -/
def process_message (flow : Flow) (message platform : String) (s0 : Session)
    (now : Nat) (dispatchOk : Bool) : OrchestrationResult :=
  let s := { s0 with messageCount := s0.messageCount + 1 }
  if s.flowCompleted && !s.phoneCollected && is_phone_number message then
    let pc := handle_phone_collection message s now dispatchOk
    { responseType := "phone_collected", response := pc.response,
      session := pc.session, leadRecord := pc.leadRecord,
      dispatchAttempted := pc.dispatchAttempted }
  else if platform == "whatsapp" then
    { responseType := "gemini_whatsapp",
      response := handle_gemini_response flow message s,
      session := { s with lastUpdated := now },
      leadRecord := none, dispatchAttempted := false }
  else if !s.flowCompleted && is_step_response message s.currentStep then
    let fb := handle_firebase_step flow message s now
    { responseType := "firebase_step", response := fb.1,
      session := fb.2.2, leadRecord := none, dispatchAttempted := false }
  else
    let stepData := flow.steps.find? (fun t => t.id == s.currentStep)
    let offTopic := get_off_topic_response message s.currentStep
    let combined :=
      match offTopic, stepData with
      | some r, some st => r ++ "\n\n" ++ st.question
      | _, _ =>
        match stepData with
        | some st => st.question
        | none => "Qual é o seu nome completo?"
    { responseType := "firebase_redirect", response := combined,
      session := { s with lastUpdated := now },
      leadRecord := none, dispatchAttempted := false }

/-- `handle_phone_number_submission`: loads the stored session (an empty
dictionary when none exists, modelled with Python's `dict.get` defaults)
and invokes phone collection directly, with no guard on
`flow_completed`. -/
def handle_phone_number_submission (phoneNumber : String)
    (existing : Option Session) (now : Nat) (dispatchOk : Bool) : PhoneOutcome :=
  let sd :=
    match existing with
    | some d => d
    | none =>
      { platform := "", createdAt := 0, currentStep := 1, responses := [],
        flowCompleted := false, phoneCollected := false, messageCount := 0,
        phoneNumber := none, phoneFormatted := none, lastUpdated := 0 }
  handle_phone_collection phoneNumber sd now dispatchOk

/-- The four canonical steps (the `law_firm_intake` default flow created
by `get_conversation_flow` in firebase_service.py). -/
def step1 : Step :=
  { id := 1, question := "Olá! Para começar, qual é o seu nome completo?",
    field := some "step_1",
    errorMessage := some "Por favor, informe seu nome completo." }

def step2 : Step :=
  { id := 2,
    question := "Em qual área do direito você precisa de ajuda?\n\n• Penal\n• Civil\n• Trabalhista\n• Família\n• Empresarial",
    field := some "step_2",
    errorMessage := some "Por favor, escolha uma das áreas: Penal, Civil, Trabalhista, Família ou Empresarial." }

def step3 : Step :=
  { id := 3, question := "Por favor, descreva brevemente sua situação ou problema jurídico.",
    field := some "step_3",
    errorMessage := some "Por favor, descreva sua situação com mais detalhes." }

def step4 : Step :=
  { id := 4,
    question := "Gostaria de agendar uma consulta com nosso advogado especializado? (Sim ou Não)",
    field := some "step_4",
    errorMessage := some "Por favor, responda Sim ou Não." }

/-- The canonical flow definition. -/
def defaultFlow : Flow :=
  { steps := [step1, step2, step3, step4],
    completionMessage := "Perfeito! Suas informações foram registradas com sucesso. Nossa equipe especializada analisará seu caso e entrará em contato em breve para agendar sua consulta." }

/-- The minimal fallback flow hard-coded in the exception handler of
`_get_conversation_flow` (no field names, no error texts). -/
def fallbackFlow : Flow :=
  { steps :=
      [ { id := 1, question := "Qual é o seu nome completo?", field := none, errorMessage := none },
        { id := 2, question := "Em qual área do direito você precisa de ajuda?", field := none, errorMessage := none },
        { id := 3, question := "Descreva brevemente sua situação.", field := none, errorMessage := none },
        { id := 4, question := "Gostaria de agendar uma consulta?", field := none, errorMessage := none } ],
    completionMessage := "Obrigado! Suas informações foram registradas." }

/-- `_get_conversation_flow` with its 5-minute cache: returns the flow to
use and the new cache contents.  `flowCache`/`cacheAge` model the
`flow_cache`/`cache_timestamp` attributes (`cacheAge` in seconds, `none`
when the timestamp is unset), `fetched` the outcome of the external
fetch.  On fetch failure the exception handler returns the hard-coded
`fallbackFlow` and leaves the cache unchanged. -/
def get_conversation_flow_cached (flowCache : Option Flow) (cacheAge : Option Nat)
    (fetched : Except String Flow) : Flow × Option Flow :=
  if flowCache.isNone || cacheAge.isNone || decide (300 < cacheAge.getD 0) then
    match fetched with
    | Except.ok f => (f, some f)
    | Except.error _ => (fallbackFlow, flowCache)
  else
    (flowCache.getD fallbackFlow, flowCache)

/-- The fixed finite set of canned off-topic replies. -/
def canned_replies : List String :=
  off_topic_patterns.map Prod.snd ++ ["Vamos continuar com o atendimento."]

/-- Feed a list of messages through `process_message` in order,
threading the session state (timestamps fixed at 0, dispatch assumed to
succeed; neither influences the flow state). -/
def run_messages (flow : Flow) (platform : String) : Session → List String → Session
  | s, [] => s
  | s, m :: rest =>
    run_messages flow platform (process_message flow m platform s 0 true).session rest

/-- A freshly created web session, as `_get_or_create_session` builds it. -/
def freshWebSession : Session := get_or_create_session none "web" none 0

/-- A web session waiting at step 2 of the canonical flow. -/
def sessionAtStep2 : Session := { freshWebSession with currentStep := 2 }

/-- A web session whose structured flow is completed, phone not yet
collected. -/
def completedSession : Session := { freshWebSession with flowCompleted := true }

/-- A web session whose flow is completed and whose phone was already
collected. -/
def completedCollectedSession : Session :=
  { freshWebSession with flowCompleted := true, phoneCollected := true }

/- ------------------------------------------------------------------ -/
/- Helper lemmas shared by the claim theorems. -/

/-- `handle_phone_collection` only ever touches the phone fields and
`last_updated`; step progress, stored responses and completion are
untouched. -/
theorem handle_phone_collection_frame (msg : String) (s : Session) (now : Nat) (dOk : Bool) :
    (handle_phone_collection msg s now dOk).session.currentStep = s.currentStep ∧
    (handle_phone_collection msg s now dOk).session.responses = s.responses ∧
    (handle_phone_collection msg s now dOk).session.flowCompleted = s.flowCompleted := by
  unfold handle_phone_collection
  dsimp only
  split <;> simp

/-- `handle_firebase_step` returns the session either unchanged or with
only `last_updated` refreshed (the undefined `next_step` NameError path
prevents any other mutation). -/
theorem handle_firebase_step_cases (flow : Flow) (msg : String) (s : Session) (now : Nat) :
    (handle_firebase_step flow msg s now).2.2 = s ∨
    (handle_firebase_step flow msg s now).2.2 = { s with lastUpdated := now } := by
  unfold handle_firebase_step
  split
  · split <;> simp
  · split <;> simp

/- ------------------------------------------------------------------ -/
/- Claim theorems. -/

/-- C1 (code-bug demonstration): each of the four canonical answers is
accepted by the classifier and normalizes successfully at its step, yet
after processing all four through `process_message` the flow is still
not completed, `responses` holds zero entries (not K = 4) and the
session is still stuck at step 1: the flow-advancement write-back is
unreachable because of the undefined `next_step` name. -/
theorem valid_answer_sequence_never_completes_flow :
    (is_step_response "Maria Silva" 1 = true ∧
      validate_and_normalize_answer "Maria Silva" 1 = some "Maria Silva") ∧
    (is_step_response "trabalhista" 2 = true ∧
      validate_and_normalize_answer "trabalhista" 2 = some "Trabalhista") ∧
    (is_step_response "Fui demitido sem justa causa" 3 = true ∧
      validate_and_normalize_answer "Fui demitido sem justa causa" 3 =
        some "Fui demitido sem justa causa") ∧
    (is_step_response "11987654321" 4 = true ∧
      validate_and_normalize_answer "11987654321" 4 = some "11987654321") ∧
    (run_messages defaultFlow "web" freshWebSession
        ["Maria Silva", "trabalhista", "Fui demitido sem justa causa", "11987654321"]).flowCompleted
        = false ∧
    (run_messages defaultFlow "web" freshWebSession
        ["Maria Silva", "trabalhista", "Fui demitido sem justa causa", "11987654321"]).responses
        = [] ∧
    (run_messages defaultFlow "web" freshWebSession
        ["Maria Silva", "trabalhista", "Fui demitido sem justa causa", "11987654321"]).currentStep
        = 1 := by
  decide

/-- C2: a message the classifier accepts for the current step but the
normalizer rejects leaves `current_step`, `responses` and
`flow_completed` unchanged, and the reply is the step's configured error
text, falling back to the step's question when no error text is
configured. -/
theorem step_validation_failure_preserves_state
    (flow : Flow) (msg platform : String) (s : Session) (now : Nat) (dOk : Bool) (st : Step)
    (hplat : platform = "web")
    (hfc : s.flowCompleted = false)
    (hcls : is_step_response msg s.currentStep = true)
    (hfind : flow.steps.find? (fun t => t.id == s.currentStep) = some st)
    (hnorm : validate_and_normalize_answer msg s.currentStep = none) :
    (process_message flow msg platform s now dOk).session.currentStep = s.currentStep ∧
    (process_message flow msg platform s now dOk).session.responses = s.responses ∧
    (process_message flow msg platform s now dOk).session.flowCompleted = false ∧
    (process_message flow msg platform s now dOk).response = st.errorMessage.getD st.question := by
  subst hplat
  unfold process_message handle_firebase_step
  simp +decide [hfc, hcls, hfind, hnorm]

/-- Witness for C2: "contrato" is in the classifier's legal-area lexicon
but in none of the normalizer's synonym entries, so at step 2 it is
accepted then rejected, and the reply is step 2's error text. -/
theorem step_validation_failure_preserves_state_witness :
    (is_step_response "contrato" 2 = true ∧
      validate_and_normalize_answer "contrato" 2 = none) ∧
    ((process_message defaultFlow "contrato" "web" sessionAtStep2 7 true).session.currentStep
        = sessionAtStep2.currentStep ∧
      (process_message defaultFlow "contrato" "web" sessionAtStep2 7 true).session.responses
        = sessionAtStep2.responses ∧
      (process_message defaultFlow "contrato" "web" sessionAtStep2 7 true).session.flowCompleted
        = false ∧
      (process_message defaultFlow "contrato" "web" sessionAtStep2 7 true).response
        = step2.errorMessage.getD step2.question) :=
  ⟨⟨by decide, by decide⟩,
    step_validation_failure_preserves_state defaultFlow "contrato" "web" sessionAtStep2 7 true
      step2 rfl (by decide) (by decide) (by decide) (by decide)⟩

/-- C3 (counterexample): `handle_phone_number_submission` (the
submit-phone operation) on a session that does not exist yet — one
exposed operation — produces a stored session with
`phone_collected = true` while `flow_completed` is still `false`,
violating the claimed invariant. -/
theorem phone_submission_before_completion :
    (handle_phone_number_submission "11987654321" none 5 true).session.phoneCollected = true ∧
    (handle_phone_number_submission "11987654321" none 5 true).session.flowCompleted = false := by
  decide

/-- C3 (amended): restricted to `process_message`, the invariant does
hold — a `process_message` call can flip `phone_collected` to true only
when `flow_completed` was already true (the phone-capture branch is the
only one that sets it, and it is guarded by `flow_completed`). -/
theorem process_message_phone_gated_by_completion
    (flow : Flow) (msg platform : String) (s : Session) (now : Nat) (dOk : Bool)
    (h1 : s.phoneCollected = false)
    (h2 : (process_message flow msg platform s now dOk).session.phoneCollected = true) :
    s.flowCompleted = true := by
  unfold process_message at h2
  dsimp only at h2
  split at h2
  · rename_i hcond
    simp only [Bool.and_eq_true] at hcond
    exact hcond.1.1
  · split at h2
    · simp at h2
      exact absurd h2 (by simp [h1])
    · split at h2
      · rcases handle_firebase_step_cases flow msg { s with messageCount := s.messageCount + 1 } now
            with hc | hc <;>
          rw [hc] at h2 <;> simp [h1] at h2
      · simp at h2
        exact absurd h2 (by simp [h1])

/-- Witness for the amended C3 at a completed session and an 11-digit
message, where the phone branch genuinely fires. -/
theorem process_message_phone_gated_by_completion_witness :
    (completedSession.phoneCollected = false ∧
      (process_message defaultFlow "11987654321" "web" completedSession 9 true).session.phoneCollected
        = true) ∧
    completedSession.flowCompleted = true :=
  ⟨⟨by decide, by decide⟩,
    process_message_phone_gated_by_completion defaultFlow "11987654321" "web" completedSession 9
      true (by decide) (by decide)⟩

/-- C4 (counterexample): a reachable session with `phone_collected =
true` but `flow_completed = false` (produced by the direct submit-phone
operation) routes a digit-shaped message to the structured-flow branch
(`firebase_step`), not to the conversational/off-topic path; no handoff
is re-triggered, but the routing conjunct of the claim is false. -/
theorem duplicate_phone_enters_step_branch :
    (handle_phone_number_submission "11987654321" none 0 true).session.phoneCollected = true ∧
    is_phone_number "11987654321" = true ∧
    (process_message defaultFlow "11987654321" "web"
        (handle_phone_number_submission "11987654321" none 0 true).session 1 true).responseType
      = "firebase_step" ∧
    (process_message defaultFlow "11987654321" "web"
        (handle_phone_number_submission "11987654321" none 0 true).session 1 true).responseType
      ≠ "firebase_redirect" ∧
    (process_message defaultFlow "11987654321" "web"
        (handle_phone_number_submission "11987654321" none 0 true).session 1 true).responseType
      ≠ "gemini_whatsapp" := by
  decide

/-- C4 (amended): once `phone_collected` is true, no further
`process_message` call submits a lead or attempts notification dispatch;
and whenever `flow_completed` is also true, the digit-shaped message is
handled by the conversational (messaging-gateway) or off-topic/redirect
(web) path. -/
theorem collected_phone_never_retriggers_handoff
    (flow : Flow) (msg platform : String) (s : Session) (now : Nat) (dOk : Bool)
    (hpc : s.phoneCollected = true)
    (hph : is_phone_number msg = true) :
    (process_message flow msg platform s now dOk).leadRecord = none ∧
    (process_message flow msg platform s now dOk).dispatchAttempted = false ∧
    (s.flowCompleted = true →
      (process_message flow msg platform s now dOk).responseType = "gemini_whatsapp" ∨
      (process_message flow msg platform s now dOk).responseType = "firebase_redirect") := by
  unfold process_message
  dsimp only
  rw [if_neg (by simp [hpc])]
  split
  · exact ⟨rfl, rfl, fun _ => Or.inl rfl⟩
  · split
    · rename_i hcond
      simp only [Bool.and_eq_true, Bool.not_eq_true'] at hcond
      refine ⟨rfl, rfl, fun hfcomp => ?_⟩
      rw [hcond.1] at hfcomp
      exact absurd hfcomp (by simp)
    · exact ⟨rfl, rfl, fun _ => Or.inr rfl⟩

/-- Witness for the amended C4 at a completed, phone-collected session. -/
theorem collected_phone_never_retriggers_handoff_witness :
    (completedCollectedSession.phoneCollected = true ∧
      is_phone_number "11987654321" = true) ∧
    ((process_message defaultFlow "11987654321" "web" completedCollectedSession 3 true).leadRecord
        = none ∧
      (process_message defaultFlow "11987654321" "web" completedCollectedSession 3 true).dispatchAttempted
        = false ∧
      (completedCollectedSession.flowCompleted = true →
        (process_message defaultFlow "11987654321" "web" completedCollectedSession 3 true).responseType
          = "gemini_whatsapp" ∨
        (process_message defaultFlow "11987654321" "web" completedCollectedSession 3 true).responseType
          = "firebase_redirect")) :=
  ⟨⟨by decide, by decide⟩,
    collected_phone_never_retriggers_handoff defaultFlow "11987654321" "web"
      completedCollectedSession 3 true (by decide) (by decide)⟩

/-- C5: a `process_message` call with the messaging-gateway platform
never reaches the structured-flow branches — the result type is either
`phone_collected` or `gemini_whatsapp` (never `firebase_step` or
`firebase_redirect`, the only branches that consult the step classifier,
the normalizer, or the flow-advancement logic), and the session's
`current_step`, `responses` and `flow_completed` are unchanged. -/
theorem whatsapp_platform_bypasses_structured_flow
    (flow : Flow) (msg platform : String) (s : Session) (now : Nat) (dOk : Bool)
    (hplat : platform = "whatsapp") :
    ((process_message flow msg platform s now dOk).responseType = "phone_collected" ∨
      (process_message flow msg platform s now dOk).responseType = "gemini_whatsapp") ∧
    (process_message flow msg platform s now dOk).session.currentStep = s.currentStep ∧
    (process_message flow msg platform s now dOk).session.responses = s.responses ∧
    (process_message flow msg platform s now dOk).session.flowCompleted = s.flowCompleted := by
  subst hplat
  unfold process_message
  dsimp only
  split
  · refine ⟨Or.inl rfl, ?_, ?_, ?_⟩
    · exact (handle_phone_collection_frame msg _ now dOk).1
    · exact (handle_phone_collection_frame msg _ now dOk).2.1
    · exact (handle_phone_collection_frame msg _ now dOk).2.2
  · simp +decide

/-- Witness for C5 on a fresh messaging-gateway session and an arbitrary
greeting. -/
theorem whatsapp_platform_bypasses_structured_flow_witness :
    ("whatsapp" = "whatsapp") ∧
    (((process_message defaultFlow "oi" "whatsapp" freshWebSession 2 true).responseType
          = "phone_collected" ∨
        (process_message defaultFlow "oi" "whatsapp" freshWebSession 2 true).responseType
          = "gemini_whatsapp") ∧
      (process_message defaultFlow "oi" "whatsapp" freshWebSession 2 true).session.currentStep
        = freshWebSession.currentStep ∧
      (process_message defaultFlow "oi" "whatsapp" freshWebSession 2 true).session.responses
        = freshWebSession.responses ∧
      (process_message defaultFlow "oi" "whatsapp" freshWebSession 2 true).session.flowCompleted
        = freshWebSession.flowCompleted) :=
  ⟨rfl,
    whatsapp_platform_bypasses_structured_flow defaultFlow "oi" "whatsapp" freshWebSession 2 true
      rfl⟩

/-- C6 (code-bug demonstration): "Maria Silva" at step 1 does normalize
to "Maria Silva", but `process_message` answers with step 1's question
again, leaves `current_step` at 1 and stores nothing — it does not
advance to step 2 nor return step 2's prompt, because the advancement
code dies on the undefined `next_step` name. -/
theorem maria_silva_step_one_does_not_advance :
    validate_and_normalize_answer "Maria Silva" 1 = some "Maria Silva" ∧
    (process_message defaultFlow "Maria Silva" "web" freshWebSession 3 true).session.currentStep
      = 1 ∧
    (process_message defaultFlow "Maria Silva" "web" freshWebSession 3 true).session.responses
      = [] ∧
    (process_message defaultFlow "Maria Silva" "web" freshWebSession 3 true).response
      = step1.question ∧
    (process_message defaultFlow "Maria Silva" "web" freshWebSession 3 true).response
      ≠ step2.question := by
  decide

/-- C7 (counterexample): "socorro" at step 2 leaves the step at 2, but
the returned text is step 2's question, not step 2's configured error
text — the classifier rejects the message before the normalizer ever
runs, so the off-topic/redirect branch answers with the bare prompt. -/
theorem socorro_step_two_not_error_text :
    (process_message defaultFlow "socorro" "web" sessionAtStep2 4 true).session.currentStep = 2 ∧
    step2.errorMessage
      = some "Por favor, escolha uma das áreas: Penal, Civil, Trabalhista, Família ou Empresarial." ∧
    (process_message defaultFlow "socorro" "web" sessionAtStep2 4 true).response = step2.question ∧
    (process_message defaultFlow "socorro" "web" sessionAtStep2 4 true).response
      ≠ "Por favor, escolha uma das áreas: Penal, Civil, Trabalhista, Família ou Empresarial." := by
  decide

/-- C7 (amended): "socorro" at step 2 is rejected by the step classifier
(no legal-area keyword), matches no off-topic category, and is answered
with step 2's prompt while `current_step` stays 2. -/
theorem socorro_step_two_redirects_to_prompt :
    is_step_response "socorro" 2 = false ∧
    get_off_topic_response "socorro" 2 = none ∧
    (process_message defaultFlow "socorro" "web" sessionAtStep2 4 true).session.currentStep = 2 ∧
    (process_message defaultFlow "socorro" "web" sessionAtStep2 4 true).response
      = step2.question := by
  decide

/-- C8: on the off-topic/redirect branch (web platform, flow not
completed, classifier rejects) the resulting session is exactly the old
one with `last_updated` refreshed (and the per-message `message_count`
increment every branch performs); `responses`, `current_step`,
`flow_completed` and `phone_collected` are untouched, and the reply is
the matching canned off-topic text concatenated with the current step's
prompt, or the bare prompt when nothing matches. -/
theorem offtopic_redirect_frame_and_reply
    (flow : Flow) (msg platform : String) (s : Session) (now : Nat) (dOk : Bool) (st : Step)
    (hplat : platform = "web")
    (hfc : s.flowCompleted = false)
    (hcls : is_step_response msg s.currentStep = false)
    (hfind : flow.steps.find? (fun t => t.id == s.currentStep) = some st) :
    (process_message flow msg platform s now dOk).session
      = { s with messageCount := s.messageCount + 1, lastUpdated := now } ∧
    (process_message flow msg platform s now dOk).response
      = (match get_off_topic_response msg s.currentStep with
         | some r => r ++ "\n\n" ++ st.question
         | none => st.question) := by
  subst hplat
  unfold process_message
  cases hot : get_off_topic_response msg s.currentStep with
  | some r => simp +decide [hfc, hcls, hfind, hot]
  | none => simp +decide [hfc, hcls, hfind, hot]

/-- Witness for C8: "quanto custa" at step 2 is classifier-rejected,
matches the pricing category, and the reply is the pricing canned text
plus step 2's prompt with the session frame preserved. -/
theorem offtopic_redirect_frame_and_reply_witness :
    (is_step_response "quanto custa" 2 = false ∧
      get_off_topic_response "quanto custa" 2
        = some "Entendo sua preocupação sobre valores, mas vamos primeiro coletar suas informações. Discutiremos isso depois.") ∧
    ((process_message defaultFlow "quanto custa" "web" sessionAtStep2 6 true).session
        = { sessionAtStep2 with messageCount := sessionAtStep2.messageCount + 1, lastUpdated := 6 } ∧
      (process_message defaultFlow "quanto custa" "web" sessionAtStep2 6 true).response
        = (match get_off_topic_response "quanto custa" sessionAtStep2.currentStep with
           | some r => r ++ "\n\n" ++ step2.question
           | none => step2.question)) :=
  ⟨⟨by decide, by decide⟩,
    offtopic_redirect_frame_and_reply defaultFlow "quanto custa" "web" sessionAtStep2 6 true step2
      rfl (by decide) (by decide) (by decide)⟩

/-- C9 (counterexample): when the flow fetch fails and no cached copy
exists, `_get_conversation_flow` does not surface an error result — it
substitutes the hard-coded minimal default flow (four steps), and the
request proceeds normally with it. -/
theorem flow_fetch_failure_substitutes_default :
    (get_conversation_flow_cached none none (Except.error "service unavailable")).1
      = fallbackFlow ∧
    (get_conversation_flow_cached none none (Except.error "service unavailable")).1.steps.length
      = 4 ∧
    (process_message (get_conversation_flow_cached none none (Except.error "service unavailable")).1
        "oi" "web" freshWebSession 2 true).responseType = "firebase_redirect" := by
  decide

/-- C9 (amended): on any fetch failure with an empty cache,
`_get_conversation_flow` returns the hard-coded minimal default flow and
leaves the cache empty; the request neither crashes nor returns an error
result. -/
theorem flow_fetch_failure_uses_fallback_flow :
    ∀ (cacheAge : Option Nat) (e : String),
      get_conversation_flow_cached none cacheAge (Except.error e) = (fallbackFlow, none) := by
  intro cacheAge e
  rfl

/-- C10: the off-topic reply function ignores its step argument — the
same message yields the same reply at any two step values — and its
result is always `none` or one of the fixed finite list
`canned_replies`. -/
theorem off_topic_reply_step_independent_and_canned :
    ∀ (m : String) (s1 s2 : Nat),
      get_off_topic_response m s1 = get_off_topic_response m s2 ∧
      (get_off_topic_response m s1 = none ∨
        ∃ r, get_off_topic_response m s1 = some r ∧ r ∈ canned_replies) := by
  intro m s1 s2
  refine ⟨rfl, ?_⟩
  unfold get_off_topic_response
  dsimp only
  split
  · rename_i p hp
    right
    exact ⟨p.2, rfl,
      List.mem_append_left _ (List.mem_map_of_mem Prod.snd (List.mem_of_find?_eq_some hp))⟩
  · split
    · right
      refine ⟨_, rfl, List.mem_append_right _ ?_⟩
      simp [canned_replies]
    · left
      rfl

end Orchestration
